import Mathlib

/-!
# OrderManager: a shallow embedding

The request layer of the trading client (`order_manager.cpp`, `order_manager.h`)
is embedded as pure functions on an explicit state. A request is built as a
`rapidjson` document; what is handed to `WsConnector::transmit` is the text the
`Writer` has put in the buffer, kept as the sequence of values the `Writer` has
printed, which stops short when the `Writer` refuses a value. A reply is the
document that `Document::Parse` produces from the text returned by
`WsConnector::receive`.
-/

namespace TradeSystem

/-! ## Data model -/

/-- A C++ `double`. The code only copies doubles into documents and prints
them, so a double is kept as its IEEE 754 bit pattern (sign, 11 exponent bits,
52 fraction bits) and no arithmetic is modelled. -/
structure Dbl where
  bits : Nat
  deriving DecidableEq, Repr

/-- Whether the double is a NaN or an infinity: all exponent bits are set
(`internal::Double::IsNanOrInf` of `rapidjson`). -/
def Dbl.isNanOrInf (d : Dbl) : Bool :=
  (d.bits / 4503599627370496) % 2048 == 2047

/-- A `rapidjson` value. An object is the list of its members in insertion
order; `AddMember` does not look for an existing member of the same name, so a
name may occur more than once. -/
inductive Json where
  | null
  | bool (b : Bool)
  | int (i : Int)
  | dbl (d : Dbl)
  | str (s : String)
  | arr (xs : List Json)
  | obj (ms : List (String × Json))
  deriving Repr

/-- The text seen through `std::string::c_str()` or `GetString()` by a consumer
that takes a `const char*`: the characters before the first NUL. This is what
`rapidjson::Value(s.c_str(), allocator)`, `HasMember(s.c_str())` and the
assignment of a `const char*` to a `std::string` read. -/
def cStr (s : String) : String :=
  String.mk (s.data.takeWhile (fun c => c != Char.ofNat 0))

/-- The first member with the given name, as `FindMember` and `operator[]`
return it. -/
def findMember (ms : List (String × Json)) (name : String) : Option Json :=
  ms.lookup name

/-- `HasMember` on the members of an object. -/
def hasMember (ms : List (String × Json)) (name : String) : Bool :=
  (findMember ms name).isSome

/-- `AddMember`: the member is appended. It is only ever applied to objects. -/
def Json.AddMember (j : Json) (name : String) (v : Json) : Json :=
  match j with
  | .obj ms => .obj (ms ++ [(name, v)])
  | other => other

/-- The member `name` of an object, `none` when the value is not an object or
has no such member. -/
def Json.member (j : Json) (name : String) : Option Json :=
  match j with
  | .obj ms => findMember ms name
  | _ => none

/-- One value or structural mark that the `Writer` prints into the buffer. The
separators it puts between them are fixed by the marks and are not kept. -/
inductive Tok where
  | startObject
  | endObject
  | startArray
  | endArray
  | key (k : String)
  | null
  | bool (b : Bool)
  | int (i : Int)
  | dbl (d : Dbl)
  | str (s : String)
  deriving DecidableEq, Repr

mutual
/-- `doc.Accept(writer)` with a `rapidjson::Writer` of default flags, as in
`rapidjson` 1.1.0 and later: what the `Writer` prints, and the result of
`Accept`. Every value is printed except a double that is a NaN or an infinity,
for which `Writer::Double` returns false (`kWriteNanAndInfFlag` is not set);
`Accept` then returns false at once, so nothing after that double is printed,
neither the remaining members nor the closing marks. -/
def Accept : Json → List Tok × Bool
  | .null => ([.null], true)
  | .bool b => ([.bool b], true)
  | .int i => ([.int i], true)
  | .dbl d => if d.isNanOrInf then ([], false) else ([.dbl d], true)
  | .str s => ([.str s], true)
  | .arr xs =>
    (.startArray :: (AcceptElements xs).1 ++ (if (AcceptElements xs).2 then [.endArray] else []),
     (AcceptElements xs).2)
  | .obj ms =>
    (.startObject :: (AcceptMembers ms).1 ++ (if (AcceptMembers ms).2 then [.endObject] else []),
     (AcceptMembers ms).2)
/-- The loop of `Accept` over the elements of an array. -/
def AcceptElements : List Json → List Tok × Bool
  | [] => ([], true)
  | x :: xs =>
    ((Accept x).1 ++ (if (Accept x).2 then (AcceptElements xs).1 else []),
     (Accept x).2 && (AcceptElements xs).2)
/-- The loop of `Accept` over the members of an object: the key, then the
value. -/
def AcceptMembers : List (String × Json) → List Tok × Bool
  | [] => ([], true)
  | (k, v) :: ms =>
    (.key k :: (Accept v).1 ++ (if (Accept v).2 then (AcceptMembers ms).1 else []),
     (Accept v).2 && (AcceptMembers ms).2)
end

/-- `buffer.GetString()` after `doc.Accept(writer)`: what the `Writer` has
printed. The operations do not look at the result of `Accept`. -/
def bufferText (doc : Json) : List Tok :=
  (Accept doc).1

/-- A feed handler, `std::function<void(const rapidjson::Document&)>`. What the
embedding observes of a handler is that it was called (its `tag` is logged) and
whether the call raised an exception. -/
structure Handler where
  tag : Nat
  throws : Json → Bool

/-- One call of `WsConnector::transmit`: the text handed over, and whether the
call returned (`true`) or threw (`false`). -/
structure Sent where
  text : List Tok
  delivered : Bool

/-- What the transport does during one request operation: `transmit` throws,
`transmit` returns and `receive` throws, or `receive` returns a text, given by
the document `Parse` makes of it (`Json.null` for unparsable text). -/
inductive Net where
  | transmitThrows
  | receiveThrows
  | reply (doc : Json)

/-- The text appended to the prefix in the message of a `std::runtime_error`:
the buffer that holds the request, or the reply, given by the document `Parse`
makes of it. -/
inductive Detail where
  | requestText (text : List Tok)
  | replyText (doc : Json)

/-- How a request operation ends. `runtimeError what detail` is the
`std::runtime_error` the operation itself throws (and rethrows from its
`catch`): `what` is the fixed prefix and `detail` the text that is appended.
`transportError` is an exception of `WsConnector` passing through.
`assertFailed` is a failed `RAPIDJSON_ASSERT` (member access on a value of the
wrong type). -/
inductive Outcome where
  | returned (doc : Json)
  | runtimeError (what : String) (detail : Detail)
  | transportError
  | assertFailed

/-- The state the operations read and write: the process-wide counter
`sequence_num_` (a 32-bit `int`), the reused document `json_cache_`, the
members `access_token_` and `feed_handlers_` (in iteration order, keys
unique), and for `ws_conn_` the log of the calls of `transmit`. -/
structure OrderManager where
  sequence_num_ : Int
  json_cache_ : Json
  access_token_ : String
  feed_handlers_ : List (String × Handler)
  ws_conn_ : List Sent

/-- A freshly constructed manager in a fresh process: `sequence_num_{1}`, a
default (null) document, an empty token, no handlers, nothing transmitted. -/
def OrderManager.init : OrderManager :=
  { sequence_num_ := 1, json_cache_ := .null, access_token_ := "",
    feed_handlers_ := [], ws_conn_ := [] }

/-! ## Operations -/

/-- Two's complement wrap-around of a 32-bit `int`. -/
def wrapInt32 (x : Int) : Int :=
  (x + 2147483648) % 4294967296 - 2147483648

/-- `sequence_num_.fetch_add(1)`: returns the old value; the stored value is
incremented with wrap-around, as atomic arithmetic on `int` is defined to. -/
def generateSequenceNum (s : OrderManager) : Int × OrderManager :=
  (s.sequence_num_, { s with sequence_num_ := wrapInt32 (s.sequence_num_ + 1) })

/-- The three lines `rapidjson::Writer writer(buffer); json_cache_.Accept(writer);
ws_conn_.transmit(buffer.GetString())`: the buffer is handed over as the
`Writer` left it, whether `Accept` returned true or false. -/
def transmit (ok : Bool) (s : OrderManager) : OrderManager :=
  { s with ws_conn_ := s.ws_conn_ ++ [{ text := bufferText s.json_cache_, delivered := ok }] }

/-- The tail common to `submitBuyOrder`, `removeOrder`, `updateOrder`,
`fetchPositions` and `retrieveOrderBook`: serialise and transmit `json_cache_`,
receive and parse the reply, throw when it has a member `"error"`, else return
it. `what` is the prefix of the operation's error message. -/
def exchange (what : String) (net : Net) (s : OrderManager) : OrderManager × Outcome :=
  match net with
  | .transmitThrows => (transmit false s, .transportError)
  | .receiveThrows => (transmit true s, .transportError)
  | .reply result =>
    match result with
    | .obj ms =>
      if hasMember ms "error" then
        (transmit true s, .runtimeError what (.requestText (bufferText s.json_cache_)))
      else (transmit true s, .returned result)
    | _ => (transmit true s, .assertFailed)

/-- `OrderManager::performAuthentication`. -/
def performAuthentication (id secret : String) (net : Net) (s : OrderManager) :
    OrderManager × Outcome :=
  let doc := Json.obj []
  let doc := doc.AddMember "jsonrpc" (.str "2.0")
  let doc := doc.AddMember "method" (.str "public/auth")
  let params := Json.obj []
  let params := params.AddMember "grant_type" (.str "client_credentials")
  let params := params.AddMember "client_id" (.str (cStr id))
  let params := params.AddMember "client_secret" (.str (cStr secret))
  let doc := doc.AddMember "params" params
  let (num, s) := generateSequenceNum s
  let doc := doc.AddMember "id" (.int num)
  let s := { s with json_cache_ := doc }
  match net with
  | .transmitThrows => (transmit false s, .transportError)
  | .receiveThrows => (transmit true s, .transportError)
  | .reply result =>
    let s := transmit true s
    match result with
    | .obj ms =>
      match findMember ms "result" with
      | none => (s, .runtimeError "Auth error: " (.replyText result))
      | some (.obj rs) =>
        match findMember rs "access_token" with
        | some (.str token) => ({ s with access_token_ := cStr token }, .returned (.obj rs))
        | _ => (s, .assertFailed)
      | some _ => (s, .assertFailed)
    | _ => (s, .assertFailed)

/-- `OrderManager::submitBuyOrder`. -/
def submitBuyOrder (asset : String) (qty rate : Dbl) (net : Net) (s : OrderManager) :
    OrderManager × Outcome :=
  let doc := Json.obj []
  let doc := doc.AddMember "jsonrpc" (.str "2.0")
  let doc := doc.AddMember "method" (.str "private/buy")
  let (num, s) := generateSequenceNum s
  let doc := doc.AddMember "id" (.int num)
  let params := Json.obj []
  let params := params.AddMember "instrument_name" (.str (cStr asset))
  let params := params.AddMember "amount" (.dbl qty)
  let params := params.AddMember "price" (.dbl rate)
  let params := params.AddMember "type" (.str "limit")
  let params := params.AddMember "post_only" (.bool true)
  let params := params.AddMember "access_token" (.str (cStr s.access_token_))
  let doc := doc.AddMember "params" params
  exchange "Buy order error: " net { s with json_cache_ := doc }

/-- `OrderManager::removeOrder`. -/
def removeOrder (order_ref : String) (net : Net) (s : OrderManager) :
    OrderManager × Outcome :=
  let doc := Json.obj []
  let doc := doc.AddMember "jsonrpc" (.str "2.0")
  let doc := doc.AddMember "method" (.str "private/cancel")
  let (num, s) := generateSequenceNum s
  let doc := doc.AddMember "id" (.int num)
  let params := Json.obj []
  let params := params.AddMember "order_id" (.str (cStr order_ref))
  let params := params.AddMember "access_token" (.str (cStr s.access_token_))
  let doc := doc.AddMember "params" params
  exchange "Order removal error: " net { s with json_cache_ := doc }

/-- `OrderManager::updateOrder`. -/
def updateOrder (order_ref : String) (new_rate new_qty : Dbl) (net : Net) (s : OrderManager) :
    OrderManager × Outcome :=
  let doc := Json.obj []
  let doc := doc.AddMember "jsonrpc" (.str "2.0")
  let doc := doc.AddMember "method" (.str "private/edit")
  let (num, s) := generateSequenceNum s
  let doc := doc.AddMember "id" (.int num)
  let params := Json.obj []
  let params := params.AddMember "order_id" (.str (cStr order_ref))
  let params := params.AddMember "price" (.dbl new_rate)
  let params := params.AddMember "amount" (.dbl new_qty)
  let params := params.AddMember "quantity" (.dbl new_qty)
  let params := params.AddMember "access_token" (.str (cStr s.access_token_))
  let doc := doc.AddMember "params" params
  exchange "Order update error: " net { s with json_cache_ := doc }

/-- `OrderManager::fetchPositions`. -/
def fetchPositions (net : Net) (s : OrderManager) : OrderManager × Outcome :=
  let doc := Json.obj []
  let doc := doc.AddMember "jsonrpc" (.str "2.0")
  let doc := doc.AddMember "method" (.str "private/get_positions")
  let (num, s) := generateSequenceNum s
  let doc := doc.AddMember "id" (.int num)
  let params := Json.obj []
  let params := params.AddMember "currency" (.str "BTC")
  let params := params.AddMember "access_token" (.str (cStr s.access_token_))
  let doc := doc.AddMember "params" params
  exchange "Position fetch error: " net { s with json_cache_ := doc }

/-- `OrderManager::retrieveOrderBook`. -/
def retrieveOrderBook (asset : String) (net : Net) (s : OrderManager) :
    OrderManager × Outcome :=
  let doc := Json.obj []
  let doc := doc.AddMember "jsonrpc" (.str "2.0")
  let doc := doc.AddMember "method" (.str "public/get_order_book")
  let (num, s) := generateSequenceNum s
  let doc := doc.AddMember "id" (.int num)
  let params := Json.obj []
  let params := params.AddMember "instrument_name" (.str (cStr asset))
  let doc := doc.AddMember "params" params
  exchange "Order book error: " net { s with json_cache_ := doc }

/-- A call of one of the six request operations, with its arguments. -/
inductive Op where
  | performAuthentication (id secret : String)
  | submitBuyOrder (asset : String) (qty rate : Dbl)
  | removeOrder (order_ref : String)
  | updateOrder (order_ref : String) (new_rate new_qty : Dbl)
  | fetchPositions
  | retrieveOrderBook (asset : String)

/-- Run one request operation against the transport behaviour `net`. -/
def step (op : Op) (net : Net) (s : OrderManager) : OrderManager × Outcome :=
  match op with
  | .performAuthentication id secret => performAuthentication id secret net s
  | .submitBuyOrder asset qty rate => submitBuyOrder asset qty rate net s
  | .removeOrder order_ref => removeOrder order_ref net s
  | .updateOrder order_ref new_rate new_qty => updateOrder order_ref new_rate new_qty net s
  | .fetchPositions => fetchPositions net s
  | .retrieveOrderBook asset => retrieveOrderBook asset net s

/-- Run a sequence of request operations, each with its transport behaviour.
A failed assertion ends the process, so the operations after it are not run.
The result is the final state and the outcomes of the operations that ran. -/
def run : List (Op × Net) → OrderManager → OrderManager × List Outcome
  | [], s => (s, [])
  | (op, net) :: rest, s =>
    match step op net s with
    | (s1, .assertFailed) => (s1, [.assertFailed])
    | (s1, r) => ((run rest s1).1, r :: (run rest s1).2)

/-- The scan behind `requestId`: `depth` counts the objects and arrays that
are open. The first key `"id"` met at depth 1 decides. -/
def scanId : Nat → List Tok → Option Int
  | _, [] => none
  | depth, t :: ts =>
    match t with
    | .startObject => scanId (depth + 1) ts
    | .startArray => scanId (depth + 1) ts
    | .endObject => scanId (depth - 1) ts
    | .endArray => scanId (depth - 1) ts
    | .key k =>
      if depth = 1 ∧ k = "id" then
        match ts with
        | .int i :: _ => some i
        | _ => none
      else scanId depth ts
    | _ => scanId depth ts

/-- The integer printed under the first top-level key `"id"` of a request
text, whether or not the text goes on to its end. -/
def requestId (text : List Tok) : Option Int :=
  scanId 0 text

/-- The integer under `"id"` in a reply document. -/
def replyId (doc : Json) : Option Int :=
  match doc.member "id" with
  | some (.int i) => some i
  | _ => none

/-- The ids of the requests handed to `transmit`, in the order of the calls. -/
def sentIds (s : OrderManager) : List (Option Int) :=
  s.ws_conn_.map (fun m => requestId m.text)

/-- The ids of the requests whose `transmit` returned, in the order of the
calls. -/
def deliveredIds (s : OrderManager) : List (Option Int) :=
  (s.ws_conn_.filter (fun m => m.delivered)).map (fun m => requestId m.text)

/-- `OrderManager::registerMarketFeed`: `feed_handlers_.emplace(asset, handler)`
on a `std::unordered_map`. When the key is already present nothing is inserted
and the stored handler is kept. A new entry lands at a place in the iteration
order that the container chooses, here `slot`. The key is the whole
`std::string`. -/
def registerMarketFeed (slot : Nat) (asset : String) (handler : Handler) (s : OrderManager) :
    OrderManager :=
  if s.feed_handlers_.any (fun e => e.1 == asset) then s
  else { s with feed_handlers_ :=
          s.feed_handlers_.take slot ++ (asset, handler) :: s.feed_handlers_.drop slot }

/-- Whether `transmit` returns under the transport behaviour `net`. -/
def Net.delivers : Net → Bool
  | .transmitThrows => false
  | _ => true

/-- The operation hands exactly one text to `transmit`, namely `text`. -/
def TransmitsText (op : Op) (net : Net) (s : OrderManager) (text : List Tok) : Prop :=
  (step op net s).1.ws_conn_ = s.ws_conn_ ++ [{ text := text, delivered := net.delivers }]

/-- The operation hands exactly one text to `transmit`, and it is the whole
print of the document `req`: the `Writer` printed every value of `req`. -/
def Transmits (op : Op) (net : Net) (s : OrderManager) (req : Json) : Prop :=
  TransmitsText op net s (bufferText req) ∧ (Accept req).2 = true

/-- Whether the doubles among the arguments of the operation are all finite
(neither NaN nor an infinity). Only `submitBuyOrder` and `updateOrder` take
doubles. -/
def Op.finiteArgs : Op → Bool
  | .submitBuyOrder _ qty rate => !qty.isNanOrInf && !rate.isNanOrInf
  | .updateOrder _ new_rate new_qty => !new_rate.isNanOrInf && !new_qty.isNanOrInf
  | _ => true

/-- The four private operations, which put the stored token in their params. -/
def Op.isPrivate : Op → Bool
  | .submitBuyOrder _ _ _ => true
  | .removeOrder _ => true
  | .updateOrder _ _ _ => true
  | .fetchPositions => true
  | _ => false

/-- Whether the operation is `performAuthentication`. -/
def Op.isAuth : Op → Bool
  | .performAuthentication _ _ => true
  | _ => false

/-- The parameters object an operation builds, given the stored token. -/
def paramsOf (op : Op) (token : String) : List (String × Json) :=
  match op with
  | .performAuthentication id secret =>
    [("grant_type", .str "client_credentials"), ("client_id", .str (cStr id)),
     ("client_secret", .str (cStr secret))]
  | .submitBuyOrder asset qty rate =>
    [("instrument_name", .str (cStr asset)), ("amount", .dbl qty), ("price", .dbl rate),
     ("type", .str "limit"), ("post_only", .bool true), ("access_token", .str (cStr token))]
  | .removeOrder order_ref =>
    [("order_id", .str (cStr order_ref)), ("access_token", .str (cStr token))]
  | .updateOrder order_ref new_rate new_qty =>
    [("order_id", .str (cStr order_ref)), ("price", .dbl new_rate), ("amount", .dbl new_qty),
     ("quantity", .dbl new_qty), ("access_token", .str (cStr token))]
  | .fetchPositions => [("currency", .str "BTC"), ("access_token", .str (cStr token))]
  | .retrieveOrderBook asset => [("instrument_name", .str (cStr asset))]

/-- The method name of an operation. -/
def methodOf : Op → String
  | .performAuthentication _ _ => "public/auth"
  | .submitBuyOrder _ _ _ => "private/buy"
  | .removeOrder _ => "private/cancel"
  | .updateOrder _ _ _ => "private/edit"
  | .fetchPositions => "private/get_positions"
  | .retrieveOrderBook _ => "public/get_order_book"

/-- The prefix of the error message of an operation. -/
def errorPrefixOf : Op → String
  | .performAuthentication _ _ => "Auth error: "
  | .submitBuyOrder _ _ _ => "Buy order error: "
  | .removeOrder _ => "Order removal error: "
  | .updateOrder _ _ _ => "Order update error: "
  | .fetchPositions => "Position fetch error: "
  | .retrieveOrderBook _ => "Order book error: "

/-- The request document an operation builds from its arguments, the stored
token and the id taken from the counter. That `step` leaves this document in
`json_cache_` and hands its print to `transmit` is `step_state`. -/
def requestOf (op : Op) (token : String) (num : Int) : Json :=
  match op with
  | .performAuthentication _ _ =>
    .obj [("jsonrpc", .str "2.0"), ("method", .str (methodOf op)),
          ("params", .obj (paramsOf op token)), ("id", .int num)]
  | _ =>
    .obj [("jsonrpc", .str "2.0"), ("method", .str (methodOf op)), ("id", .int num),
          ("params", .obj (paramsOf op token))]

/-- The order of two request ids: both are present and the first is smaller. -/
def idBefore (a b : Option Int) : Prop :=
  ∃ x y : Int, a = some x ∧ b = some y ∧ x < y

/-- The value under `"access_token"` in the params object of a request. -/
def requestToken (req : Json) : Option Json :=
  (req.member "params").bind (fun p => p.member "access_token")

/-- A string with no NUL character, that is, one that `c_str()` shows whole. -/
def nulFree (s : String) : Prop :=
  Char.ofNat 0 ∉ s.data

/-- The value returned by the k-th next call of `generateSequenceNum` (k = 0
for the next call) from the state `s`. -/
def nthSequenceNum : Nat → OrderManager → Int
  | 0, s => (generateSequenceNum s).1
  | k + 1, s => nthSequenceNum k (generateSequenceNum s).2

/-- The state after `n` calls of `generateSequenceNum`. -/
def afterCalls : Nat → OrderManager → OrderManager
  | 0, s => s
  | n + 1, s => afterCalls n (generateSequenceNum s).2

/-- A mixed run: a successful authentication, an order whose `transmit`
throws, a cancellation answered with an error, an order book query whose
`receive` throws, and a positions query answered normally. -/
def sampleScript : List (Op × Net) :=
  [(.performAuthentication "me" "pw",
      .reply (.obj [("id", .int 1), ("result", .obj [("access_token", .str "T")])])),
   (.submitBuyOrder "BTC-PERPETUAL" ⟨1⟩ ⟨2⟩, .transmitThrows),
   (.removeOrder "o-1", .reply (.obj [("id", .int 3), ("error", .obj [("code", .int 13009)])])),
   (.retrieveOrderBook "BTC-PERPETUAL", .receiveThrows),
   (.fetchPositions, .reply (.obj [("id", .int 5), ("result", .arr [])]))]

/-- A reply with a result and no error, carrying the id 1. -/
def okReply : Json :=
  .obj [("jsonrpc", .str "2.0"), ("id", .int 1), ("result", .obj [("order", .str "o-1")])]

/-- A token with a NUL character in it, as the JSON text `"a\u0000b"` parses. -/
def nulToken : String :=
  String.mk ['a', Char.ofNat 0, 'b']

/-- An authentication reply whose token is `nulToken`. -/
def nulTokenReply : Json :=
  .obj [("jsonrpc", .str "2.0"), ("id", .int 1),
        ("result", .obj [("access_token", .str nulToken)])]

/-- The JSON-RPC request envelope: an object with exactly the four members
`jsonrpc` = "2.0", `method`, `params` (an object) and `id`, each once, in any
order. -/
def isEnvelope (req : Json) (method : String) (num : Int) : Prop :=
  ∃ ms params, req = .obj ms ∧
    ms.Perm [("jsonrpc", .str "2.0"), ("method", .str method), ("params", .obj params),
             ("id", .int num)]

/-- A response frame that answers some other request: its id is 7. -/
def otherIdReply : Json :=
  .obj [("jsonrpc", .str "2.0"), ("id", .int 7), ("result", .obj [])]

/-- A notification frame: keyed by an instrument and carrying no id. -/
def notificationFrame : Json :=
  .obj [("BTC-PERPETUAL", .obj [("last_price", .int 50000)])]

/-- A response frame that carries an error for the request with id 1. -/
def errorReply : Json :=
  .obj [("jsonrpc", .str "2.0"), ("id", .int 1),
        ("error", .obj [("code", .int 13009), ("message", .str "unauthorized")])]

/-- A manager whose counter holds the largest `int`. -/
def atIntMax : OrderManager :=
  { OrderManager.init with sequence_num_ := 2147483647 }

/-- An order reference with a NUL character in it: `a`, NUL, `b`. -/
def nulOrderRef : String :=
  String.mk ['a', Char.ofNat 0, 'b']

/-- A manager that holds the token `"old"`. -/
def withOldToken : OrderManager :=
  { OrderManager.init with access_token_ := "old" }

/-- A manager that holds the token `"T"`, whose counter is at 2 and whose
reused document is still empty. -/
def tokenOnly : OrderManager :=
  { OrderManager.init with access_token_ := "T", sequence_num_ := 2 }

/-- A manager right after an authentication that gave the token `"T"`: the
counter is at 2 and the reused document holds the authentication request, with
its `client_secret`. -/
def afterAuth : OrderManager :=
  (performAuthentication "me" "pw"
    (.reply (.obj [("result", .obj [("access_token", .str "T")])])) OrderManager.init).1

/-- The request of `removeOrder("o-1")` with the token `"T"` and the id 2. -/
def cancelRequest : Json :=
  .obj [("jsonrpc", .str "2.0"), ("method", .str "private/cancel"), ("id", .int 2),
        ("params", .obj [("order_id", .str "o-1"), ("access_token", .str "T")])]

/-- A quiet NaN: exponent bits all set, fraction not zero. -/
def nanDbl : Dbl :=
  { bits := 9221120237041090560 }

/-- The double 1.0. -/
def oneDbl : Dbl :=
  { bits := 4607182418800017408 }

/-- What the `Writer` has printed of the `private/buy` request with id 1 when
it reaches a quantity that is a NaN: the text ends after the key `amount`. -/
def cutBuyText : List Tok :=
  [.startObject, .key "jsonrpc", .str "2.0", .key "method", .str "private/buy",
   .key "id", .int 1, .key "params", .startObject,
   .key "instrument_name", .str "BTC-PERPETUAL", .key "amount"]

/-! ## Theorems -/

@[simp]
theorem Json.AddMember_obj (ms : List (String × Json)) (name : String) (v : Json) :
    (Json.obj ms).AddMember name v = .obj (ms ++ [(name, v)]) := rfl

theorem exchange_fst (what : String) (net : Net) (s : OrderManager) :
    (exchange what net s).1 = transmit net.delivers s := by
  unfold exchange
  cases net with
  | transmitThrows => rfl
  | receiveThrows => rfl
  | reply result =>
    cases result <;> first | rfl | (simp only []; split <;> rfl)

/-- Every operation builds one request document from its arguments, the
stored token and the counter value, which it advances by one, and hands to
`transmit` what the `Writer` prints of it; the reused document is left holding
that request. -/
theorem step_state (op : Op) (net : Net) (s : OrderManager) :
    (step op net s).1.ws_conn_ =
        s.ws_conn_ ++ [⟨bufferText (requestOf op s.access_token_ s.sequence_num_), net.delivers⟩]
      ∧ (step op net s).1.sequence_num_ = wrapInt32 (s.sequence_num_ + 1)
      ∧ (step op net s).1.json_cache_ = requestOf op s.access_token_ s.sequence_num_
      ∧ (step op net s).1.feed_handlers_ = s.feed_handlers_ := by
  cases op
  case performAuthentication id secret =>
    cases net with
    | transmitThrows =>
      simp [step, performAuthentication, generateSequenceNum, transmit, requestOf, paramsOf,
        methodOf, Net.delivers]
    | receiveThrows =>
      simp [step, performAuthentication, generateSequenceNum, transmit, requestOf, paramsOf,
        methodOf, Net.delivers]
    | reply result =>
      simp only [step, performAuthentication, generateSequenceNum, transmit, requestOf, paramsOf,
        methodOf, Net.delivers, Json.AddMember_obj]
      split
      · split
        · simp
        · split <;> simp
        · simp
      · simp
  all_goals
    simp [step, submitBuyOrder, removeOrder, updateOrder, fetchPositions, retrieveOrderBook,
      generateSequenceNum, exchange_fst, transmit, requestOf, paramsOf, methodOf]

theorem step_transmits (op : Op) (net : Net) (s : OrderManager) :
    TransmitsText op net s (bufferText (requestOf op s.access_token_ s.sequence_num_)) :=
  (step_state op net s).1

/-- The `Writer` prints the whole request when the doubles in it are finite. -/
theorem accept_requestOf (op : Op) (token : String) (num : Int) (hfin : op.finiteArgs = true) :
    (Accept (requestOf op token num)).2 = true := by
  cases op <;> simp [Op.finiteArgs] at hfin <;>
    simp [requestOf, paramsOf, Accept, AcceptMembers, hfin]

theorem step_transmits_whole (op : Op) (net : Net) (s : OrderManager)
    (hfin : op.finiteArgs = true) :
    Transmits op net s (requestOf op s.access_token_ s.sequence_num_) :=
  ⟨step_transmits op net s, accept_requestOf op _ _ hfin⟩

/-- The id is printed in every request text, also in one that stops short: in
the operations that take doubles the id comes before the params. -/
theorem requestId_requestOf (op : Op) (token : String) (num : Int) :
    requestId (bufferText (requestOf op token num)) = some num := by
  cases op <;>
    simp [requestId, scanId, bufferText, requestOf, paramsOf, methodOf, Accept, AcceptMembers]

theorem wrapInt32_id (x : Int) (h1 : -2147483648 ≤ x) (h2 : x < 2147483648) :
    wrapInt32 x = x := by
  unfold wrapInt32; omega

theorem wrapInt32_range (x : Int) : -2147483648 ≤ wrapInt32 x ∧ wrapInt32 x < 2147483648 := by
  unfold wrapInt32; omega

theorem wrapInt32_succ (c : Int) (k : Nat) :
    wrapInt32 (wrapInt32 (c + 1) + (k : Int)) = wrapInt32 (c + ((k + 1 : Nat) : Int)) := by
  unfold wrapInt32; push_cast; omega

theorem run_cons (op : Op) (net : Net) (rest : List (Op × Net)) (s : OrderManager) :
    ((step op net s).2 = .assertFailed ∧
        run ((op, net) :: rest) s = ((step op net s).1, [.assertFailed]))
      ∨ ((step op net s).2 ≠ .assertFailed ∧
        run ((op, net) :: rest) s =
          ((run rest (step op net s).1).1, (step op net s).2 :: (run rest (step op net s).1).2)) := by
  rcases h : step op net s with ⟨s1, r⟩
  cases r <;> simp [run, h]

/-- The requests a run hands to `transmit`: one per operation run, the k-th
carrying the counter value advanced k times with wrap-around. -/
theorem run_ids (script : List (Op × Net)) :
    ∀ s : OrderManager, -2147483648 ≤ s.sequence_num_ → s.sequence_num_ < 2147483648 →
      ∃ new : List Sent, (run script s).1.ws_conn_ = s.ws_conn_ ++ new
        ∧ new.map (fun m => requestId m.text)
            = (List.range (run script s).2.length).map
                (fun (k : Nat) => some (wrapInt32 (s.sequence_num_ + (k : Int))))
        ∧ (run script s).2.length ≤ script.length
        ∧ (Outcome.assertFailed ∉ (run script s).2 → (run script s).2.length = script.length) := by
  induction script with
  | nil => intro s _ _; exact ⟨[], by simp [run]⟩
  | cons x rest ih =>
    obtain ⟨op, net⟩ := x
    intro s h1 h2
    obtain ⟨hw, hc, -, -⟩ := step_state op net s
    have h0 : wrapInt32 s.sequence_num_ = s.sequence_num_ := wrapInt32_id _ h1 h2
    rcases run_cons op net rest s with ⟨hr, hrun⟩ | ⟨hr, hrun⟩
    · refine ⟨[⟨bufferText (requestOf op s.access_token_ s.sequence_num_), net.delivers⟩],
        ?_, ?_, ?_, ?_⟩
      · rw [hrun]; exact hw
      · rw [hrun]; simp [requestId_requestOf, List.range_succ, h0]
      · rw [hrun]; simp
      · rw [hrun]; simp
    · have hrng := wrapInt32_range (s.sequence_num_ + 1)
      obtain ⟨new, e1, e2, e3, e4⟩ :=
        ih (step op net s).1 (by rw [hc]; exact hrng.1) (by rw [hc]; exact hrng.2)
      refine ⟨⟨bufferText (requestOf op s.access_token_ s.sequence_num_), net.delivers⟩ :: new,
        ?_, ?_, ?_, ?_⟩
      · rw [hrun]; simp only []; rw [e1, hw]; simp
      · rw [hrun]; simp only [List.map_cons, List.length_cons, List.range_succ_eq_map, e2,
          requestId_requestOf, hc, List.map_map]
        simp only [Nat.cast_zero, add_zero, h0, List.cons.injEq, true_and]
        apply List.map_congr_left
        intro k _
        simp only [Function.comp]
        rw [wrapInt32_succ]
      · rw [hrun]; simp only [List.length_cons]; omega
      · rw [hrun]; intro hn
        simp only [List.length_cons]
        rw [e4 (fun hm => hn (List.mem_cons_of_mem _ hm))]

theorem pairwise_idBefore_range (c : Int) (n : Nat) :
    ((List.range n).map (fun (k : Nat) => some (c + (k : Int)))).Pairwise idBefore := by
  rw [List.pairwise_map]
  refine List.Pairwise.imp ?_ (List.pairwise_lt_range n)
  intro a b hab
  exact ⟨c + a, c + b, rfl, rfl, by omega⟩

theorem deliveredIds_sublist (s : OrderManager) : (deliveredIds s).Sublist (sentIds s) :=
  List.Sublist.map _ (List.filter_sublist _)

/-- C1. In a fresh process, for every sequence of at most 2^31 - 1 request
operations, whatever the transport does in each of them (the reply is normal,
carries an error, `receive` throws or `transmit` throws), the requests handed to
`transmit` carry the ids 1, 2, 3, ... in the order of the calls: one id per
operation run, each the previous one plus 1. Hence the ids are strictly
increasing and pairwise distinct, and so are the ids of the requests whose
`transmit` returned. Every operation of the sequence is run unless an assertion
of the JSON library fails, which ends the process. -/
theorem request_ids_consecutive (script : List (Op × Net))
    (hlen : script.length ≤ 2147483647) :
    sentIds (run script OrderManager.init).1
        = (List.range (run script OrderManager.init).2.length).map
            (fun (k : Nat) => some (1 + (k : Int)))
      ∧ (run script OrderManager.init).2.length ≤ script.length
      ∧ (Outcome.assertFailed ∉ (run script OrderManager.init).2 →
          (run script OrderManager.init).2.length = script.length)
      ∧ (sentIds (run script OrderManager.init).1).Pairwise idBefore
      ∧ (deliveredIds (run script OrderManager.init).1).Pairwise idBefore := by
  obtain ⟨new, e1, e2, e3, e4⟩ :=
    run_ids script OrderManager.init (by simp [OrderManager.init]) (by simp [OrderManager.init])
  have hids : sentIds (run script OrderManager.init).1
      = (List.range (run script OrderManager.init).2.length).map
          (fun (k : Nat) => some (1 + (k : Int))) := by
    unfold sentIds
    rw [e1]
    simp only [OrderManager.init, List.nil_append]
    rw [e2]
    apply List.map_congr_left
    intro k hk
    have hk2 : k < (run script OrderManager.init).2.length := List.mem_range.mp hk
    simp only [OrderManager.init]
    rw [wrapInt32_id _ (by omega) (by omega)]
  have hpw : (sentIds (run script OrderManager.init).1).Pairwise idBefore := by
    rw [hids]; exact pairwise_idBefore_range 1 _
  exact ⟨hids, e3, e4, hpw, hpw.sublist (deliveredIds_sublist _)⟩

/-- C1 at `sampleScript`: five operations with every kind of ending. -/
theorem request_ids_consecutive_witness :
    sampleScript.length ≤ 2147483647
      ∧ sentIds (run sampleScript OrderManager.init).1 = [some 1, some 2, some 3, some 4, some 5]
      ∧ deliveredIds (run sampleScript OrderManager.init).1 = [some 1, some 3, some 4, some 5]
      ∧ (sentIds (run sampleScript OrderManager.init).1).Pairwise idBefore :=
  ⟨by decide,
   by simp [sentIds, sampleScript, run, step, performAuthentication, submitBuyOrder,
        removeOrder, retrieveOrderBook, fetchPositions, exchange, transmit,
        generateSequenceNum, OrderManager.init, findMember, hasMember, List.lookup, bufferText,
        Accept, AcceptMembers, requestId, scanId, wrapInt32, cStr, Dbl.isNanOrInf],
   by simp [deliveredIds, sampleScript, run, step, performAuthentication, submitBuyOrder,
        removeOrder, retrieveOrderBook, fetchPositions, exchange, transmit,
        generateSequenceNum, OrderManager.init, findMember, hasMember, List.lookup, bufferText,
        Accept, AcceptMembers, requestId, scanId, wrapInt32, cStr, Dbl.isNanOrInf],
   (request_ids_consecutive sampleScript (by decide)).2.2.2.1⟩

theorem cStr_empty : cStr "" = "" := by decide

theorem requestToken_requestOf (op : Op) (token : String) (num : Int) (hp : op.isPrivate = true) :
    requestToken (requestOf op token num) = some (.str (cStr token)) := by
  cases op <;> simp [Op.isPrivate] at hp <;>
    simp [requestToken, requestOf, paramsOf, Json.member, findMember, List.lookup]

/-- The outcome of an operation other than `performAuthentication`. -/
theorem step_outcome (op : Op) (net : Net) (s : OrderManager) (hop : op.isAuth = false) :
    (step op net s).2 =
      match net with
      | .transmitThrows => .transportError
      | .receiveThrows => .transportError
      | .reply (.obj ms) =>
        if hasMember ms "error" then
          .runtimeError (errorPrefixOf op)
            (.requestText (bufferText (requestOf op s.access_token_ s.sequence_num_)))
        else .returned (.obj ms)
      | .reply _ => .assertFailed := by
  cases op <;> simp [Op.isAuth] at hop <;>
    (cases net with
     | transmitThrows => rfl
     | receiveThrows => rfl
     | reply result =>
       cases result <;> first | rfl | (simp only [step, submitBuyOrder, removeOrder, updateOrder, fetchPositions, retrieveOrderBook, generateSequenceNum, exchange, Json.AddMember_obj, requestOf, paramsOf, methodOf, errorPrefixOf]; split <;> simp))


/-- C2 (as the code behaves). A private operation called while the token is
absent (the empty string a fresh manager holds), with quantity and rate that
are finite doubles, does not fail fast: it hands exactly one request to
`transmit`, printed whole, whose params carry `access_token` as the empty
string, and its outcome is decided by the transport alone; a reply object
without an `"error"` member is returned to the caller as usual. -/
theorem absent_token_request_is_sent (op : Op) (net : Net) (s : OrderManager)
    (hp : op.isPrivate = true) (hfin : op.finiteArgs = true) (htok : s.access_token_ = "") :
    (∃ req, Transmits op net s req ∧ requestToken req = some (.str ""))
      ∧ (∀ ms, net = .reply (.obj ms) → hasMember ms "error" = false →
          (step op net s).2 = .returned (.obj ms)) := by
  have hop : op.isAuth = false := by cases op <;> simp_all [Op.isPrivate, Op.isAuth]
  refine ⟨⟨_, step_transmits_whole op net s hfin, ?_⟩, ?_⟩
  · rw [requestToken_requestOf op _ _ hp, htok, cStr_empty]
  · intro ms hnet herr
    rw [step_outcome op net s hop, hnet]
    simp [herr]

/-- C2 (as the code behaves) at `submitBuyOrder` for 1.0 at 1.0 on a fresh
manager. -/
theorem absent_token_request_is_sent_witness :
    (Op.submitBuyOrder "BTC-PERPETUAL" oneDbl oneDbl).isPrivate = true
      ∧ (Op.submitBuyOrder "BTC-PERPETUAL" oneDbl oneDbl).finiteArgs = true
      ∧ OrderManager.init.access_token_ = ""
      ∧ ((∃ req, Transmits (.submitBuyOrder "BTC-PERPETUAL" oneDbl oneDbl) (.reply okReply)
              OrderManager.init req
            ∧ requestToken req = some (.str ""))
        ∧ (∀ ms, Net.reply okReply = .reply (.obj ms) → hasMember ms "error" = false →
            (step (.submitBuyOrder "BTC-PERPETUAL" oneDbl oneDbl) (.reply okReply)
              OrderManager.init).2 = .returned (.obj ms))) :=
  ⟨rfl, rfl, rfl, absent_token_request_is_sent (.submitBuyOrder "BTC-PERPETUAL" oneDbl oneDbl)
    (.reply okReply) OrderManager.init rfl rfl rfl⟩

/-- C2 fails as stated. On a fresh manager, whose token is absent, each of the
four private operations hands a request to `transmit`, which delivers it, and
returns the reply to the caller: there is no precondition failure and the
request is sent. The `Writer` printed each request whole (the last four
parts). -/
theorem absent_token_counterexample :
    OrderManager.init.access_token_ = ""
      ∧ (step (.submitBuyOrder "BTC-PERPETUAL" ⟨1⟩ ⟨2⟩) (.reply okReply) OrderManager.init).1.ws_conn_
          = [⟨bufferText (.obj [("jsonrpc", .str "2.0"), ("method", .str "private/buy"), ("id", .int 1),
                    ("params", .obj [("instrument_name", .str "BTC-PERPETUAL"),
                      ("amount", .dbl ⟨1⟩), ("price", .dbl ⟨2⟩), ("type", .str "limit"),
                      ("post_only", .bool true), ("access_token", .str "")])]), true⟩]
      ∧ (step (.submitBuyOrder "BTC-PERPETUAL" ⟨1⟩ ⟨2⟩) (.reply okReply) OrderManager.init).2
          = .returned okReply
      ∧ (step (.removeOrder "o-1") (.reply okReply) OrderManager.init).1.ws_conn_
          = [⟨bufferText (.obj [("jsonrpc", .str "2.0"), ("method", .str "private/cancel"), ("id", .int 1),
                    ("params", .obj [("order_id", .str "o-1"), ("access_token", .str "")])]), true⟩]
      ∧ (step (.removeOrder "o-1") (.reply okReply) OrderManager.init).2 = .returned okReply
      ∧ (step (.updateOrder "o-1" ⟨2⟩ ⟨1⟩) (.reply okReply) OrderManager.init).1.ws_conn_
          = [⟨bufferText (.obj [("jsonrpc", .str "2.0"), ("method", .str "private/edit"), ("id", .int 1),
                    ("params", .obj [("order_id", .str "o-1"), ("price", .dbl ⟨2⟩),
                      ("amount", .dbl ⟨1⟩), ("quantity", .dbl ⟨1⟩),
                      ("access_token", .str "")])]), true⟩]
      ∧ (step (.updateOrder "o-1" ⟨2⟩ ⟨1⟩) (.reply okReply) OrderManager.init).2
          = .returned okReply
      ∧ (step .fetchPositions (.reply okReply) OrderManager.init).1.ws_conn_
          = [⟨bufferText (.obj [("jsonrpc", .str "2.0"), ("method", .str "private/get_positions"),
                    ("id", .int 1),
                    ("params", .obj [("currency", .str "BTC"), ("access_token", .str "")])]), true⟩]
      ∧ (step .fetchPositions (.reply okReply) OrderManager.init).2 = .returned okReply
      ∧ (Accept (step (.submitBuyOrder "BTC-PERPETUAL" ⟨1⟩ ⟨2⟩) (.reply okReply)
          OrderManager.init).1.json_cache_).2 = true
      ∧ (Accept (step (.removeOrder "o-1") (.reply okReply)
          OrderManager.init).1.json_cache_).2 = true
      ∧ (Accept (step (.updateOrder "o-1" ⟨2⟩ ⟨1⟩) (.reply okReply)
          OrderManager.init).1.json_cache_).2 = true
      ∧ (Accept (step .fetchPositions (.reply okReply) OrderManager.init).1.json_cache_).2
          = true :=
  ⟨rfl, rfl, rfl, rfl, rfl, rfl, rfl, rfl, rfl, rfl, rfl, rfl, rfl⟩

theorem cStr_idem (s : String) : cStr (cStr s) = cStr s := by
  simp [cStr, List.takeWhile_idem]

theorem cStr_of_nulFree (s : String) (h : nulFree s) : cStr s = s := by
  unfold cStr
  have : s.data.takeWhile (fun c => c != Char.ofNat 0) = s.data := by
    rw [List.takeWhile_eq_self_iff]
    intro x hx
    simp only [bne_iff_ne, ne_eq]
    intro hx0
    exact h (hx0 ▸ hx)
  rw [this]

theorem step_token (op : Op) (net : Net) (s : OrderManager) (hop : op.isAuth = false) :
    (step op net s).1.access_token_ = s.access_token_ := by
  cases op <;> simp [Op.isAuth] at hop <;>
    simp [step, submitBuyOrder, removeOrder, updateOrder, fetchPositions, retrieveOrderBook,
      generateSequenceNum, exchange_fst, transmit]

theorem run_token (script : List (Op × Net)) :
    ∀ s : OrderManager, (∀ x ∈ script, x.1.isAuth = false) →
      (run script s).1.access_token_ = s.access_token_ := by
  induction script with
  | nil => intro s _; rfl
  | cons x rest ih =>
    obtain ⟨op, net⟩ := x
    intro s h
    have hop : op.isAuth = false := h (op, net) (List.mem_cons_self _ _)
    have hrest : ∀ x ∈ rest, x.1.isAuth = false := fun x hx => h x (List.mem_cons_of_mem _ hx)
    rcases run_cons op net rest s with ⟨-, hrun⟩ | ⟨-, hrun⟩
    · rw [hrun]; exact step_token op net s hop
    · rw [hrun]; simp only []; rw [ih _ hrest, step_token op net s hop]

theorem auth_token (id secret : String) (ms rs : List (String × Json)) (T : String)
    (s : OrderManager) (hres : findMember ms "result" = some (.obj rs))
    (htok : findMember rs "access_token" = some (.str T)) :
    (performAuthentication id secret (.reply (.obj ms)) s).1.access_token_ = cStr T
      ∧ (performAuthentication id secret (.reply (.obj ms)) s).2 = .returned (.obj rs) := by
  simp [performAuthentication, hres, htok]

/-- C3 (as the code behaves). If `performAuthentication` receives a reply
object whose member `"result"` is an object whose `"access_token"` is the string
T, then after any operations other than `performAuthentication`, each private
operation whose quantity and rate are finite doubles hands to `transmit` a
request, printed whole, whose params carry `access_token` equal to T cut at its
first NUL character; when T has no NUL character this is T. -/
theorem token_embedded_after_auth (T id secret : String) (ms rs : List (String × Json))
    (s : OrderManager) (mid : List (Op × Net)) (op : Op) (net : Net)
    (hres : findMember ms "result" = some (.obj rs))
    (htok : findMember rs "access_token" = some (.str T))
    (hmid : ∀ x ∈ mid, x.1.isAuth = false) (hp : op.isPrivate = true)
    (hfin : op.finiteArgs = true) :
    ∃ req, Transmits op net (run mid (performAuthentication id secret (.reply (.obj ms)) s).1).1 req
      ∧ requestToken req = some (.str (cStr T))
      ∧ (nulFree T → requestToken req = some (.str T)) := by
  refine ⟨_, step_transmits_whole op net _ hfin, ?_, ?_⟩
  · rw [requestToken_requestOf op _ _ hp, run_token mid _ hmid,
      (auth_token id secret ms rs T s hres htok).1, cStr_idem]
  · intro hT
    rw [requestToken_requestOf op _ _ hp, run_token mid _ hmid,
      (auth_token id secret ms rs T s hres htok).1, cStr_idem, cStr_of_nulFree T hT]


/-- C3 (as the code behaves) at the token `"T"`, with an order book query
and a rejected cancellation between the authentication and the order. -/
theorem token_embedded_after_auth_witness :
    findMember [("id", .int 1), ("result", .obj [("access_token", .str "T")])] "result"
        = some (.obj [("access_token", .str "T")])
      ∧ findMember [("access_token", .str "T")] "access_token" = some (.str "T")
      ∧ ∃ req, Transmits (.submitBuyOrder "BTC-PERPETUAL" ⟨1⟩ ⟨2⟩) (.reply okReply)
          (run [(.retrieveOrderBook "BTC-PERPETUAL", .reply okReply),
                (.removeOrder "o-1", .reply (.obj [("error", .null)]))]
            (performAuthentication "me" "pw"
              (.reply (.obj [("id", .int 1), ("result", .obj [("access_token", .str "T")])]))
              OrderManager.init).1).1 req
        ∧ requestToken req = some (.str (cStr "T"))
        ∧ (nulFree "T" → requestToken req = some (.str "T")) :=
  ⟨rfl, rfl, token_embedded_after_auth "T" "me" "pw" _ _ OrderManager.init _
    (.submitBuyOrder "BTC-PERPETUAL" ⟨1⟩ ⟨2⟩) (.reply okReply) rfl rfl
    (by simp [Op.isAuth]) rfl rfl⟩

/-- C3 fails as stated for a token with a NUL character. The reply carries
the token `"a\u0000b"`; the token is read through `GetString()` into
`access_token_`, which keeps `"a"`, and the next `submitBuyOrder` embeds `"a"`,
which is not the token of the reply. -/
theorem token_embedded_counterexample :
    nulTokenReply.member "result" = some (.obj [("access_token", .str nulToken)])
      ∧ findMember [("access_token", .str nulToken)] "access_token" = some (.str nulToken)
      ∧ (performAuthentication "me" "pw" (.reply nulTokenReply) OrderManager.init).2
          = .returned (.obj [("access_token", .str nulToken)])
      ∧ Transmits (.submitBuyOrder "BTC-PERPETUAL" ⟨1⟩ ⟨2⟩) (.reply okReply)
          (performAuthentication "me" "pw" (.reply nulTokenReply) OrderManager.init).1
          (.obj [("jsonrpc", .str "2.0"), ("method", .str "private/buy"), ("id", .int 2),
                 ("params", .obj [("instrument_name", .str "BTC-PERPETUAL"),
                   ("amount", .dbl ⟨1⟩), ("price", .dbl ⟨2⟩), ("type", .str "limit"),
                   ("post_only", .bool true), ("access_token", .str "a")])])
      ∧ nulToken ≠ "a" :=
  ⟨rfl, rfl, rfl, ⟨rfl, rfl⟩, by decide⟩

/-- The outcome of `performAuthentication` on a reply that is an object. -/
theorem auth_outcome (id secret : String) (ms : List (String × Json)) (s : OrderManager) :
    (performAuthentication id secret (.reply (.obj ms)) s).2 =
      match findMember ms "result" with
      | none => .runtimeError "Auth error: " (.replyText (.obj ms))
      | some (.obj rs) =>
        match findMember rs "access_token" with
        | some (.str _) => .returned (.obj rs)
        | _ => .assertFailed
      | some _ => .assertFailed := by
  cases h1 : findMember ms "result" with
  | none => simp [performAuthentication, h1]
  | some r =>
    cases r
    case obj rs =>
      cases h2 : findMember rs "access_token" with
      | none => simp [performAuthentication, h1, h2]
      | some t => cases t <;> simp [performAuthentication, h1, h2]
    all_goals simp [performAuthentication, h1]

/-- C4 (as the code behaves). A request operation returns a document exactly
when the frame received right after its request was transmitted is an object
that passes the operation's check, which never looks at `"id"`: for the five
operations other than `performAuthentication` the frame has no member
`"error"` and the returned document is that frame; for `performAuthentication`
the frame has a member `"result"` that is an object with a string
`"access_token"`, and the returned document is that `"result"` member. -/
theorem returned_document_is_next_frame (op : Op) (net : Net) (s : OrderManager) (doc : Json) :
    (op.isAuth = false →
        ((step op net s).2 = .returned doc ↔
          ∃ ms, net = .reply (.obj ms) ∧ hasMember ms "error" = false ∧ doc = .obj ms))
      ∧ (op.isAuth = true →
        ((step op net s).2 = .returned doc ↔
          ∃ ms rs T, net = .reply (.obj ms) ∧ findMember ms "result" = some (.obj rs)
            ∧ findMember rs "access_token" = some (.str T) ∧ doc = .obj rs)) := by
  constructor
  · intro hop
    rw [step_outcome op net s hop]
    cases net with
    | transmitThrows => simp
    | receiveThrows => simp
    | reply result =>
      cases result <;> simp
      rename_i ms
      cases h : hasMember ms "error" <;> simp [eq_comm]
  · intro hop
    cases op <;> simp [Op.isAuth] at hop
    rename_i id secret
    cases net with
    | transmitThrows => simp [step, performAuthentication]
    | receiveThrows => simp [step, performAuthentication]
    | reply result =>
      cases result
      case obj ms =>
        simp only [step, auth_outcome]
        cases h1 : findMember ms "result" with
        | none => simp [h1]
        | some r =>
          cases r
          case obj rs =>
            cases h2 : findMember rs "access_token" with
            | none => simp [h1, h2]
            | some t => cases t <;> simp [h1, h2, eq_comm]
          all_goals simp [h1]
      all_goals simp [step, performAuthentication]

/-- C4 (as the code behaves) at `submitBuyOrder` answered by a frame with another id. -/
theorem returned_document_is_next_frame_witness :
    (Op.submitBuyOrder "BTC-PERPETUAL" ⟨1⟩ ⟨2⟩).isAuth = false
      ∧ ((step (.submitBuyOrder "BTC-PERPETUAL" ⟨1⟩ ⟨2⟩) (.reply otherIdReply)
            OrderManager.init).2 = .returned otherIdReply ↔
          ∃ ms, Net.reply otherIdReply = .reply (.obj ms) ∧ hasMember ms "error" = false
            ∧ otherIdReply = .obj ms) :=
  ⟨rfl, (returned_document_is_next_frame (.submitBuyOrder "BTC-PERPETUAL" ⟨1⟩ ⟨2⟩)
    (.reply otherIdReply) OrderManager.init otherIdReply).1 rfl⟩

/-- C4 fails as stated. `submitBuyOrder` sends the request with id 1 and
returns a frame whose id is 7; `retrieveOrderBook` sends the request with id 1
and returns a notification frame, which has no id. -/
theorem returned_document_counterexample :
    sentIds (step (.submitBuyOrder "BTC-PERPETUAL" ⟨1⟩ ⟨2⟩) (.reply otherIdReply)
        OrderManager.init).1 = [some 1]
      ∧ (step (.submitBuyOrder "BTC-PERPETUAL" ⟨1⟩ ⟨2⟩) (.reply otherIdReply)
          OrderManager.init).2 = .returned otherIdReply
      ∧ replyId otherIdReply = some 7
      ∧ sentIds (step (.retrieveOrderBook "BTC-PERPETUAL") (.reply notificationFrame)
          OrderManager.init).1 = [some 1]
      ∧ (step (.retrieveOrderBook "BTC-PERPETUAL") (.reply notificationFrame)
          OrderManager.init).2 = .returned notificationFrame
      ∧ notificationFrame.member "id" = none :=
  ⟨rfl, rfl, rfl, rfl, rfl, rfl⟩

/-- C5 (as the code behaves). When the reply to `submitBuyOrder`,
`removeOrder`, `updateOrder`, `fetchPositions` or `retrieveOrderBook` is an
object with a member `"error"`, the operation throws a `std::runtime_error`
whose message is the operation's prefix followed by the text of the request it
handed to `transmit`; no document is returned, so the caller does not get the
reply. -/
theorem error_reply_throws (op : Op) (ms : List (String × Json)) (s : OrderManager)
    (hop : op.isAuth = false) (herr : hasMember ms "error" = true) :
    (∃ text, TransmitsText op (.reply (.obj ms)) s text
        ∧ (step op (.reply (.obj ms)) s).2
            = .runtimeError (errorPrefixOf op) (.requestText text))
      ∧ ∀ doc, (step op (.reply (.obj ms)) s).2 ≠ .returned doc := by
  have h := step_outcome op (.reply (.obj ms)) s hop
  simp only [herr, if_true] at h
  exact ⟨⟨_, step_transmits op _ s, h⟩, fun doc hd => by rw [h] at hd; cases hd⟩

/-- C5 (as the code behaves) at `removeOrder` answered by `errorReply`. -/
theorem error_reply_throws_witness :
    (Op.removeOrder "o-1").isAuth = false
      ∧ hasMember [("jsonrpc", .str "2.0"), ("id", .int 1),
          ("error", .obj [("code", .int 13009), ("message", .str "unauthorized")])] "error" = true
      ∧ ((∃ text, TransmitsText (.removeOrder "o-1") (.reply errorReply) OrderManager.init text
            ∧ (step (.removeOrder "o-1") (.reply errorReply) OrderManager.init).2
                = .runtimeError (errorPrefixOf (.removeOrder "o-1")) (.requestText text))
        ∧ ∀ doc, (step (.removeOrder "o-1") (.reply errorReply) OrderManager.init).2
            ≠ .returned doc) :=
  ⟨rfl, rfl, error_reply_throws (.removeOrder "o-1") _ OrderManager.init rfl rfl⟩

/-- C5 fails as stated. The reply to `submitBuyOrder` and to `fetchPositions`
is an object with a member `"error"`; the operation ends with a
`std::runtime_error` that carries the request, not with the reply. -/
theorem error_reply_counterexample :
    errorReply.member "error"
        = some (.obj [("code", .int 13009), ("message", .str "unauthorized")])
      ∧ (step (.submitBuyOrder "BTC-PERPETUAL" ⟨1⟩ ⟨2⟩) (.reply errorReply)
          OrderManager.init).2
          = .runtimeError "Buy order error: "
              (.requestText (bufferText
                (.obj [("jsonrpc", .str "2.0"), ("method", .str "private/buy"), ("id", .int 1),
                  ("params", .obj [("instrument_name", .str "BTC-PERPETUAL"),
                    ("amount", .dbl ⟨1⟩), ("price", .dbl ⟨2⟩), ("type", .str "limit"),
                    ("post_only", .bool true), ("access_token", .str "")])])))
      ∧ (step .fetchPositions (.reply errorReply) OrderManager.init).2
          = .runtimeError "Position fetch error: "
              (.requestText (bufferText
                (.obj [("jsonrpc", .str "2.0"), ("method", .str "private/get_positions"),
                  ("id", .int 1),
                  ("params", .obj [("currency", .str "BTC"), ("access_token", .str "")])]))) :=
  ⟨rfl, rfl, rfl⟩

theorem isEnvelope_requestOf (op : Op) (token : String) (num : Int) :
    isEnvelope (requestOf op token num) (methodOf op) num := by
  cases op
  case performAuthentication id secret => exact ⟨_, _, rfl, List.Perm.refl _⟩
  all_goals exact ⟨_, _, rfl, List.Perm.cons _ (List.Perm.cons _ (List.Perm.swap _ _ _))⟩

/-- With finite doubles among its arguments, an operation hands to `transmit`
one document, printed whole, that is an object with exactly the four members
`"jsonrpc"` (the string "2.0"), `"method"` (the operation's method name),
`"params"` (an object) and `"id"` (the value `generateSequenceNum` returns for
this call), each exactly once. -/
theorem request_envelope_finite (op : Op) (net : Net) (s : OrderManager)
    (hfin : op.finiteArgs = true) :
    ∃ req, Transmits op net s req ∧ isEnvelope req (methodOf op) (generateSequenceNum s).1 :=
  ⟨_, step_transmits_whole op net s hfin, isEnvelope_requestOf _ _ _⟩

/-- A text that ends with a key is not the whole print of any document. -/
theorem accept_ne_cutBuyText (req : Json) : Accept req ≠ (cutBuyText, true) := by
  intro h
  cases req
  case obj ms =>
    simp only [Accept, Prod.mk.injEq] at h
    obtain ⟨h1, h2⟩ := h
    rw [h2, if_pos rfl] at h1
    have := congrArg List.getLast? h1
    rw [List.getLast?_concat] at this
    simp [cutBuyText] at this
  case arr xs =>
    simp only [Accept, Prod.mk.injEq] at h
    have := congrArg List.head? h.1
    simp [cutBuyText] at this
  case dbl d =>
    simp only [Accept] at h
    split at h <;> simp [cutBuyText] at h
  all_goals simp [Accept, cutBuyText] at h

/-- C6 at its failing input. `submitBuyOrder("BTC-PERPETUAL", NaN, 1.0)` on a
fresh manager builds the document with the four members, but the `Writer`
stops at the NaN and the operation hands to `transmit` the text printed so
far, which ends after the key `amount`; the transport delivers it. That text
is not the whole print of any document: the params object and the request
object are not closed, and `price`, `type`, `post_only` and `access_token` are
not in it. -/
theorem request_envelope_cut_at_nan :
    nanDbl.isNanOrInf = true
      ∧ (step (.submitBuyOrder "BTC-PERPETUAL" nanDbl oneDbl) (.reply okReply)
          OrderManager.init).1.ws_conn_ = [⟨cutBuyText, true⟩]
      ∧ (Accept (step (.submitBuyOrder "BTC-PERPETUAL" nanDbl oneDbl) (.reply okReply)
          OrderManager.init).1.json_cache_).2 = false
      ∧ isEnvelope (step (.submitBuyOrder "BTC-PERPETUAL" nanDbl oneDbl) (.reply okReply)
          OrderManager.init).1.json_cache_ "private/buy" 1
      ∧ ∀ req, Accept req ≠ (cutBuyText, true) :=
  ⟨rfl, rfl, rfl, ⟨_, _, rfl, List.Perm.cons _ (List.Perm.cons _ (List.Perm.swap _ _ _))⟩,
    accept_ne_cutBuyText⟩

theorem nthSequenceNum_eq (k : Nat) :
    ∀ s : OrderManager, -2147483648 ≤ s.sequence_num_ → s.sequence_num_ < 2147483648 →
      nthSequenceNum k s = wrapInt32 (s.sequence_num_ + (k : Int)) := by
  induction k with
  | zero =>
    intro s h1 h2
    simp only [nthSequenceNum, generateSequenceNum, Nat.cast_zero, add_zero]
    exact (wrapInt32_id _ h1 h2).symm
  | succ k ih =>
    intro s h1 h2
    have hr := wrapInt32_range (s.sequence_num_ + 1)
    simp only [nthSequenceNum]
    rw [ih (generateSequenceNum s).2 hr.1 hr.2]
    exact wrapInt32_succ s.sequence_num_ k

theorem afterCalls_sequence_num (n : Nat) :
    ∀ s : OrderManager, -2147483648 ≤ s.sequence_num_ → s.sequence_num_ < 2147483648 →
      (afterCalls n s).sequence_num_ = wrapInt32 (s.sequence_num_ + (n : Int)) := by
  induction n with
  | zero =>
    intro s h1 h2
    simp only [afterCalls, Nat.cast_zero, add_zero]
    exact (wrapInt32_id _ h1 h2).symm
  | succ n ih =>
    intro s h1 h2
    have hr := wrapInt32_range (s.sequence_num_ + 1)
    simp only [afterCalls]
    rw [ih (generateSequenceNum s).2 hr.1 hr.2]
    exact wrapInt32_succ s.sequence_num_ n

theorem wrapInt32_eq_iff (c : Int) (i j : Nat) :
    wrapInt32 (c + (i : Int)) = wrapInt32 (c + (j : Int)) ↔ i % 4294967296 = j % 4294967296 := by
  unfold wrapInt32
  omega

/-- C10 (as the code behaves). When the counter holds 2^31 - 1, the next call
of `generateSequenceNum` returns 2^31 - 1 and the call after it returns -2^31:
the counter wraps around, it neither saturates nor reports an error. From
there the k-th next call returns 2^31 - 1 + k reduced to the 32-bit range, so
two calls return the same value exactly when their positions differ by a
multiple of 2^32: no value comes back within 2^32 consecutive calls and every
value comes back after exactly 2^32 calls. -/
theorem sequence_num_wraps (s : OrderManager) (hmax : s.sequence_num_ = 2147483647) :
    nthSequenceNum 0 s = 2147483647
      ∧ nthSequenceNum 1 s = -2147483648
      ∧ (∀ k : Nat, nthSequenceNum k s = wrapInt32 (2147483647 + (k : Int)))
      ∧ (∀ i j : Nat, nthSequenceNum i s = nthSequenceNum j s
          ↔ i % 4294967296 = j % 4294967296) := by
  have hk : ∀ k : Nat, nthSequenceNum k s = wrapInt32 (2147483647 + (k : Int)) := by
    intro k
    rw [nthSequenceNum_eq k s (by omega) (by omega), hmax]
  refine ⟨?_, ?_, hk, ?_⟩
  · rw [hk]; decide
  · rw [hk]; decide
  · intro i j
    rw [hk, hk]
    exact wrapInt32_eq_iff _ i j

/-- C10 (as the code behaves) at `atIntMax`. -/
theorem sequence_num_wraps_witness :
    atIntMax.sequence_num_ = 2147483647
      ∧ nthSequenceNum 0 atIntMax = 2147483647
      ∧ nthSequenceNum 1 atIntMax = -2147483648
      ∧ (∀ k : Nat, nthSequenceNum k atIntMax = wrapInt32 (2147483647 + (k : Int)))
      ∧ (∀ i j : Nat, nthSequenceNum i atIntMax = nthSequenceNum j atIntMax
          ↔ i % 4294967296 = j % 4294967296) :=
  ⟨rfl, sequence_num_wraps atIntMax rfl⟩

/-- C10 fails as stated. The counter of a fresh process reaches 2^31 - 1 after
2^31 - 2 calls. There the next call returns 2^31 - 1 and the one after it
returns -2^31, which is less than values returned earlier. The calls go on
through the negative values, and the call 2^32 calls after the first returns 1,
the value the first call returned. -/
theorem sequence_num_counterexample :
    (afterCalls 2147483646 OrderManager.init).sequence_num_ = 2147483647
      ∧ nthSequenceNum 0 atIntMax = 2147483647
      ∧ nthSequenceNum 1 atIntMax = -2147483648
      ∧ nthSequenceNum 1 atIntMax < nthSequenceNum 0 atIntMax
      ∧ nthSequenceNum 0 OrderManager.init = 1
      ∧ nthSequenceNum 4294967296 OrderManager.init = 1 := by
  refine ⟨?_, rfl, rfl, by decide, rfl, ?_⟩
  · rw [afterCalls_sequence_num _ _ (by decide) (by decide)]; decide
  · rw [nthSequenceNum_eq _ _ (by decide) (by decide)]; decide

theorem nulFree_cStr (s : String) : nulFree (cStr s) := by
  unfold nulFree cStr
  intro h
  have := List.mem_takeWhile_imp h
  simp at this

/-- After `performAuthentication` the token is the old one or a C string. -/
theorem auth_token_cases (id secret : String) (net : Net) (s : OrderManager) :
    (performAuthentication id secret net s).1.access_token_ = s.access_token_
      ∨ ∃ T, (performAuthentication id secret net s).1.access_token_ = cStr T := by
  cases net with
  | transmitThrows => left; simp [performAuthentication, generateSequenceNum, transmit]
  | receiveThrows => left; simp [performAuthentication, generateSequenceNum, transmit]
  | reply result =>
    cases result
    case obj ms =>
      cases h1 : findMember ms "result" with
      | none => left; simp [performAuthentication, generateSequenceNum, transmit, h1]
      | some r =>
        cases r
        case obj rs =>
          cases h2 : findMember rs "access_token" with
          | none => left; simp [performAuthentication, generateSequenceNum, transmit, h1, h2]
          | some t =>
            cases t
            case str T => right; exact ⟨T, by simp [performAuthentication, h1, h2]⟩
            all_goals left; simp [performAuthentication, generateSequenceNum, transmit, h1, h2]
        all_goals left; simp [performAuthentication, generateSequenceNum, transmit, h1]
    all_goals left; simp [performAuthentication, generateSequenceNum, transmit]

theorem step_token_nulFree (op : Op) (net : Net) (s : OrderManager)
    (h : nulFree s.access_token_) : nulFree (step op net s).1.access_token_ := by
  cases hop : op.isAuth with
  | false => rw [step_token op net s hop]; exact h
  | true =>
    cases op <;> simp [Op.isAuth] at hop
    rename_i id secret
    rcases auth_token_cases id secret net s with he | ⟨T, he⟩
    · simp only [step]; rw [he]; exact h
    · simp only [step]; rw [he]; exact nulFree_cStr T

/-- The token of a manager that started fresh has no NUL character. -/
theorem run_token_nulFree (script : List (Op × Net)) :
    ∀ s : OrderManager, nulFree s.access_token_ → nulFree (run script s).1.access_token_ := by
  induction script with
  | nil => intro s h; exact h
  | cons x rest ih =>
    obtain ⟨op, net⟩ := x
    intro s h
    have hs := step_token_nulFree op net s h
    rcases run_cons op net rest s with ⟨-, hrun⟩ | ⟨-, hrun⟩
    · rw [hrun]; exact hs
    · rw [hrun]; exact ih _ hs

/-- C11 (as the code behaves). On a manager that started fresh and has run
any request operations, `updateOrder(r, p, q)` with p and q finite doubles
hands to `transmit` a `private/edit` request, printed whole, whose params
object has exactly the members `order_id`, `price` = p, `amount` = q,
`quantity` = q and `access_token` = the stored token, in this order, where
`order_id` is r cut at its first NUL character; when r has no NUL character
`order_id` is r. Both `amount` and `quantity` carry q and `price` carries p. -/
theorem update_order_params (script : List (Op × Net)) (r : String) (p q : Dbl) (net : Net)
    (hp : p.isNanOrInf = false) (hq : q.isNanOrInf = false) :
    ∃ req, Transmits (.updateOrder r p q) net (run script OrderManager.init).1 req
      ∧ req.member "method" = some (.str "private/edit")
      ∧ req.member "params" = some (.obj
          [("order_id", .str (cStr r)), ("price", .dbl p), ("amount", .dbl q),
           ("quantity", .dbl q),
           ("access_token", .str (run script OrderManager.init).1.access_token_)])
      ∧ (nulFree r → req.member "params" = some (.obj
          [("order_id", .str r), ("price", .dbl p), ("amount", .dbl q),
           ("quantity", .dbl q),
           ("access_token", .str (run script OrderManager.init).1.access_token_)])) := by
  have htok : cStr (run script OrderManager.init).1.access_token_
      = (run script OrderManager.init).1.access_token_ :=
    cStr_of_nulFree _ (run_token_nulFree script OrderManager.init (by simp [nulFree, OrderManager.init]))
  refine ⟨_, step_transmits_whole _ net _ (by simp [Op.finiteArgs, hp, hq]), ?_, ?_, ?_⟩
  · simp [requestOf, methodOf, Json.member, findMember, List.lookup]
  · simp [requestOf, paramsOf, Json.member, findMember, List.lookup, htok]
  · intro hr
    simp [requestOf, paramsOf, Json.member, findMember, List.lookup, htok, cStr_of_nulFree r hr]

/-- C11 (as the code behaves) at an order edited after an authentication. -/
theorem update_order_params_witness :
    nulFree "o-1" ∧ oneDbl.isNanOrInf = false
      ∧ ∃ req, Transmits (.updateOrder "o-1" oneDbl oneDbl) (.reply okReply)
          (run [(.performAuthentication "me" "pw",
                  .reply (.obj [("result", .obj [("access_token", .str "T")])]))]
            OrderManager.init).1 req
        ∧ req.member "params" = some (.obj
            [("order_id", .str "o-1"), ("price", .dbl oneDbl), ("amount", .dbl oneDbl),
             ("quantity", .dbl oneDbl), ("access_token", .str "T")]) := by
  have hr : nulFree "o-1" := by unfold nulFree; decide
  obtain ⟨req, h1, -, -, h4⟩ := update_order_params
    [(.performAuthentication "me" "pw",
        .reply (.obj [("result", .obj [("access_token", .str "T")])]))]
    "o-1" oneDbl oneDbl (.reply okReply) rfl rfl
  exact ⟨hr, rfl, req, h1, h4 hr⟩

/-- C11 fails as stated for an order reference with a NUL character. The
reference is `a`, NUL, `b`; `updateOrder` builds `order_id` from `c_str()` and
transmits, printed whole, a request with `order_id` = `"a"`, which is not the
reference. -/
theorem update_order_counterexample :
    Transmits (.updateOrder nulOrderRef ⟨7⟩ ⟨3⟩) (.reply okReply) OrderManager.init
        (.obj [("jsonrpc", .str "2.0"), ("method", .str "private/edit"), ("id", .int 1),
               ("params", .obj [("order_id", .str "a"), ("price", .dbl ⟨7⟩),
                 ("amount", .dbl ⟨3⟩), ("quantity", .dbl ⟨3⟩),
                 ("access_token", .str "")])])
      ∧ nulOrderRef ≠ "a" :=
  ⟨⟨rfl, rfl⟩, by decide⟩

theorem registerMarketFeed_token (slot : Nat) (asset : String) (handler : Handler)
    (s : OrderManager) :
    (registerMarketFeed slot asset handler s).access_token_ = s.access_token_ := by
  unfold registerMarketFeed
  split <;> rfl

theorem auth_token_unchanged (id secret : String) (net : Net) (s : OrderManager)
    (h : ∀ doc, (performAuthentication id secret net s).2 ≠ .returned doc) :
    (performAuthentication id secret net s).1.access_token_ = s.access_token_ := by
  cases net with
  | transmitThrows => simp [performAuthentication, generateSequenceNum, transmit]
  | receiveThrows => simp [performAuthentication, generateSequenceNum, transmit]
  | reply result =>
    cases result
    case obj ms =>
      cases h1 : findMember ms "result" with
      | none => simp [performAuthentication, generateSequenceNum, transmit, h1]
      | some r =>
        cases r
        case obj rs =>
          cases h2 : findMember rs "access_token" with
          | none => simp [performAuthentication, generateSequenceNum, transmit, h1, h2]
          | some t =>
            cases t
            case str T =>
              exact absurd (auth_token id secret ms rs T s h1 h2).2 (h _)
            all_goals simp [performAuthentication, generateSequenceNum, transmit, h1, h2]
        all_goals simp [performAuthentication, generateSequenceNum, transmit, h1]
    all_goals simp [performAuthentication, generateSequenceNum, transmit]

/-- C12 (as the code behaves). The stored token changes only in a
`performAuthentication` that returns. Such a call, on a reply whose `"result"`
is an object with the string T under `"access_token"`, sets the token to T cut
at its first NUL character (T itself when T has no NUL), whatever the token was
before. A `performAuthentication` whose reply has no `"result"` member throws
and leaves the token as it was, and so does every `performAuthentication` that
does not return. `submitBuyOrder`, `removeOrder`, `updateOrder`,
`fetchPositions`, `retrieveOrderBook` and `registerMarketFeed` leave the token
as it was, however they end. -/
theorem token_changes_only_on_auth (s : OrderManager) :
    (∀ id secret ms rs T, findMember ms "result" = some (.obj rs) →
        findMember rs "access_token" = some (.str T) →
        (performAuthentication id secret (.reply (.obj ms)) s).2 = .returned (.obj rs)
          ∧ (performAuthentication id secret (.reply (.obj ms)) s).1.access_token_ = cStr T
          ∧ (nulFree T →
              (performAuthentication id secret (.reply (.obj ms)) s).1.access_token_ = T))
      ∧ (∀ id secret ms, findMember ms "result" = none →
          (performAuthentication id secret (.reply (.obj ms)) s).2
              = .runtimeError "Auth error: " (.replyText (.obj ms))
            ∧ (performAuthentication id secret (.reply (.obj ms)) s).1.access_token_
              = s.access_token_)
      ∧ (∀ id secret net, (∀ doc, (performAuthentication id secret net s).2 ≠ .returned doc) →
          (performAuthentication id secret net s).1.access_token_ = s.access_token_)
      ∧ (∀ op net, op.isAuth = false → (step op net s).1.access_token_ = s.access_token_)
      ∧ (∀ slot asset handler,
          (registerMarketFeed slot asset handler s).access_token_ = s.access_token_) := by
  refine ⟨?_, ?_, fun id secret net => auth_token_unchanged id secret net s,
    fun op net hop => step_token op net s hop,
    fun slot asset handler => registerMarketFeed_token slot asset handler s⟩
  · intro id secret ms rs T h1 h2
    obtain ⟨ht, ho⟩ := auth_token id secret ms rs T s h1 h2
    exact ⟨ho, ht, fun hT => by rw [ht, cStr_of_nulFree T hT]⟩
  · intro id secret ms h1
    have ho : (performAuthentication id secret (.reply (.obj ms)) s).2
        = .runtimeError "Auth error: " (.replyText (.obj ms)) := by
      rw [auth_outcome, h1]
    refine ⟨ho, auth_token_unchanged id secret _ s ?_⟩
    intro doc hd
    rw [ho] at hd
    cases hd

/-- C12 (as the code behaves) at a manager that holds the token `"old"`: an
authentication that returns replaces it, one answered without `"result"` and a
rejected cancellation keep it. -/
theorem token_changes_only_on_auth_witness :
    (performAuthentication "me" "pw"
        (.reply (.obj [("result", .obj [("access_token", .str "T")])]))
        withOldToken).1.access_token_ = cStr "T"
      ∧ (performAuthentication "me" "pw" (.reply errorReply) withOldToken).1.access_token_
          = "old"
      ∧ (step (.removeOrder "o-1") (.reply errorReply) withOldToken).1.access_token_ = "old" :=
  ⟨((token_changes_only_on_auth withOldToken).1 "me" "pw"
      [("result", .obj [("access_token", .str "T")])] [("access_token", .str "T")] "T"
      rfl rfl).2.1,
   ((token_changes_only_on_auth withOldToken).2.1 "me" "pw"
      [("jsonrpc", .str "2.0"), ("id", .int 1),
       ("error", .obj [("code", .int 13009), ("message", .str "unauthorized")])] rfl).2,
   (token_changes_only_on_auth withOldToken).2.2.2.1 (.removeOrder "o-1") (.reply errorReply) rfl⟩

/-- C12 fails as stated for a token with a NUL character. The reply's
`result.access_token` is `a`, NUL, `b`; `performAuthentication` returns and the
stored token is `"a"`, not the token of the reply. -/
theorem token_replaced_counterexample :
    nulTokenReply.member "result" = some (.obj [("access_token", .str nulToken)])
      ∧ (performAuthentication "me" "pw" (.reply nulTokenReply) withOldToken).2
          = .returned (.obj [("access_token", .str nulToken)])
      ∧ (performAuthentication "me" "pw" (.reply nulTokenReply) withOldToken).1.access_token_
          = "a"
      ∧ nulToken ≠ "a" :=
  ⟨rfl, rfl, rfl, by decide⟩

theorem transmits_unique (op : Op) (net : Net) (s : OrderManager) (t1 t2 : List Tok)
    (h1 : TransmitsText op net s t1) (h2 : TransmitsText op net s t2) : t1 = t2 := by
  unfold TransmitsText at h1 h2
  rw [h1] at h2
  have := List.append_cancel_left h2
  simpa using this

/-- C13. The text an operation hands to `transmit` is a function of the
operation with its arguments, the stored token and the value of the counter,
and of nothing else: there is one function that gives, for every state and
transport behaviour, the request document the operation builds, which it
leaves in `json_cache_`, and the text handed over is what the `Writer` prints
of that document. So two calls with equal arguments, token and counter value
transmit the same text, whatever the reused document `json_cache_`, the
handlers and the log of earlier requests hold. -/
theorem request_independent_of_history :
    (∃ build : Op → String → Int → Json, ∀ op net s,
        TransmitsText op net s (bufferText (build op s.access_token_ s.sequence_num_))
          ∧ (step op net s).1.json_cache_ = build op s.access_token_ s.sequence_num_)
      ∧ (∀ op net1 net2 s1 s2 text1 text2, s1.access_token_ = s2.access_token_ →
          s1.sequence_num_ = s2.sequence_num_ →
          TransmitsText op net1 s1 text1 → TransmitsText op net2 s2 text2 → text1 = text2) := by
  refine ⟨⟨requestOf, fun op net s => ⟨step_transmits op net s, (step_state op net s).2.2.1⟩⟩, ?_⟩
  intro op net1 net2 s1 s2 text1 text2 ht hn h1 h2
  have e1 := transmits_unique op net1 s1 _ _ h1 (step_transmits op net1 s1)
  have e2 := transmits_unique op net2 s2 _ _ h2 (step_transmits op net2 s2)
  rw [e1, e2, ht, hn]

/-- C13 at `removeOrder` on two managers with the token `"T"` and the counter
at 2: one comes from an authentication, so that its reused document holds
`client_secret`, the other has an empty reused document. Both transmit the
same text, the whole print of the request with the two params `order_id` and
`access_token`. -/
theorem request_independent_of_history_witness :
    afterAuth.json_cache_.member "params"
        = some (.obj [("grant_type", .str "client_credentials"), ("client_id", .str "me"),
                      ("client_secret", .str "pw")])
      ∧ tokenOnly.json_cache_ = .null
      ∧ Transmits (.removeOrder "o-1") (.reply okReply) afterAuth cancelRequest
      ∧ ∀ text, TransmitsText (.removeOrder "o-1") .receiveThrows tokenOnly text →
          bufferText cancelRequest = text :=
  ⟨rfl, rfl, ⟨rfl, rfl⟩, fun text h =>
    request_independent_of_history.2 (.removeOrder "o-1") (.reply okReply) .receiveThrows
      afterAuth tokenOnly (bufferText cancelRequest) text rfl rfl rfl h⟩

end TradeSystem
